import Mathlib

/-!
Verification of `distcron` (package `distcron`, file `distcron.go`).

The repository schedules cron jobs across many identical processes and uses a
shared Redis store to make sure each firing of a named job runs on at most one
process.  The heart is `Schedule.lock` (distcron.go:152-213): it builds, once
per registered job, a redsync mutex named `"GLOBAL-" + name` and returns a
closure that at each firing

  1. acquires the mutex (failure: log, return),
  2. GETs the marker key `name` (error: log, return; non-nil: log, return),
  3. SETs the marker key (error: log, return),
  4. unlocks the mutex (a `false` return is logged, execution continues),
  5. runs the job body `f()`,
  6. re-locks the mutex (an error is logged, execution continues),
  7. DELs the marker key (an error is logged, execution continues),
  8. unlocks the mutex again.

We embed this closure as a pure function over an environment recording the
outcome of every external call (`GuardEnv`), a store state (`GuardState`), and
a trace of events (`GEvent`) tagged with the identity of the mutex instance
used. A separate interleaving transition system (`Race`) models several
processes running the same protocol against one shared store, to settle the
mutual-exclusion claim.  `Schedule.Run` (distcron.go:92-147) is embedded as
`runSchedule` over a ping outcome and a time-spec validity oracle.
-/

namespace Distcron

/-- A redsync mutex instance as created by `rs.NewMutex(mutexName)` at
distcron.go:156.  `id` is the identity of the instance (fresh ids mean fresh
instances), `mname` the Redis lock key. -/
structure DMutex where
  id : Nat
  mname : String
  deriving DecidableEq, Repr

/-- `fmt.Sprintf("GLOBAL-%s", name)` at distcron.go:155. -/
def mutexNameOf (name : String) : String :=
  "GLOBAL-" ++ name

/-- The closure state captured by `Schedule.lock` (distcron.go:152-157): the
mutex is created once, outside the returned closure, and captured by it. -/
structure LockClosure where
  mutex : DMutex
  deriving DecidableEq, Repr

/-- `Schedule.lock` (distcron.go:152-157): allocate one mutex for the job
`name` (with `freshId` the identity the allocator hands out at this single
`NewMutex` call) and capture it in the returned closure. -/
def lockSetup (freshId : Nat) (name : String) : LockClosure :=
  { mutex := { id := freshId, mname := mutexNameOf name } }

/-- Outcomes of the external Redis / redsync calls made during one invocation
of the closure returned by `Schedule.lock`.  Each field is the result the
store hands back at the corresponding call site in distcron.go:159-212. -/
structure GuardEnv where
  /-- `mutex.Lock()` at line 161 returns an error. -/
  lockErr : Bool
  /-- `GET name` at line 168 returns an error. -/
  getErr : Bool
  /-- `SET name 1` at line 182 returns an error. -/
  setErr : Bool
  /-- return value of `mutex.Unlock()` at line 187. -/
  unlockRet : Bool
  /-- `mutex.Lock()` at line 200 returns an error. -/
  relockErr : Bool
  /-- `DEL name` at line 205 returns an error. -/
  delErr : Bool
  /-- return value of `mutex.Unlock()` at line 209. -/
  lastUnlockRet : Bool
  deriving DecidableEq, Repr

/-- The store/lock state touched by one guard invocation: the value held at
the marker key `name`, and whether this process holds the `GLOBAL-name`
mutex. -/
structure GuardState where
  marker : Option Nat
  mutexHeld : Bool
  deriving DecidableEq, Repr

/-- Events observable during one guard invocation, in program order.  Mutex
events carry the `id` of the `DMutex` instance used at that call site. -/
inductive GEvent where
  | lockOk (mid : Nat)
  | lockFail (mid : Nat)
  | getOk (v : Option Nat)
  | getFail
  | setOk
  | setFail
  | unlockOk (mid : Nat)
  | unlockFail (mid : Nat)
  | bodyRun
  | relockOk (mid : Nat)
  | relockFail (mid : Nat)
  | delOk
  | delFail
  | lastUnlockOk (mid : Nat)
  | lastUnlockFail (mid : Nat)
  deriving DecidableEq, Repr

/-- One invocation of the closure returned by `Schedule.lock`
(distcron.go:159-212), as a function from the call outcomes `env`, the
captured mutex `m` and the pre-state `s` to the post-state and the event
trace.  Every early `return` of the Go code is an early result here; note
that the Go code does not return on a failed unlock (line 187), a failed
re-lock (line 200) or a failed DEL (line 205) - it logs and continues. -/
def lockRun (env : GuardEnv) (m : DMutex) (s : GuardState) :
    GuardState × List GEvent :=
  if env.lockErr then
    -- line 161: could not obtain lock, return
    (s, [GEvent.lockFail m.id])
  else
    let s1 : GuardState := { s with mutexHeld := true }
    if env.getErr then
      -- line 169: could not get unique key, return (mutex still held)
      (s1, [GEvent.lockOk m.id, GEvent.getFail])
    else
      match s1.marker with
      | some v =>
        -- line 174: key non-nil, someone else took the job, return
        (s1, [GEvent.lockOk m.id, GEvent.getOk (some v)])
      | none =>
        if env.setErr then
          -- line 182: could not set job key, return (mutex still held)
          (s1, [GEvent.lockOk m.id, GEvent.getOk none, GEvent.setFail])
        else
          let s2 : GuardState := { s1 with marker := some 1 }
          -- line 187: unlock before running the body; failure only logged
          let s3 : GuardState :=
            if env.unlockRet then { s2 with mutexHeld := false } else s2
          let uEvt := if env.unlockRet then GEvent.unlockOk m.id
                      else GEvent.unlockFail m.id
          -- line 194: f() runs here
          -- line 200: re-lock with the same captured mutex; failure only logged
          let s4 : GuardState :=
            if env.relockErr then s3 else { s3 with mutexHeld := true }
          let rEvt := if env.relockErr then GEvent.relockFail m.id
                      else GEvent.relockOk m.id
          -- line 205: DEL the marker key; failure only logged
          let s5 : GuardState :=
            if env.delErr then s4 else { s4 with marker := none }
          let dEvt := if env.delErr then GEvent.delFail else GEvent.delOk
          -- line 209: final unlock; failure only logged
          let s6 : GuardState :=
            if env.lastUnlockRet then { s5 with mutexHeld := false } else s5
          let fEvt := if env.lastUnlockRet then GEvent.lastUnlockOk m.id
                      else GEvent.lastUnlockFail m.id
          (s6, [GEvent.lockOk m.id, GEvent.getOk none, GEvent.setOk,
                uEvt, GEvent.bodyRun, rEvt, dEvt, fEvt])

/-- Invoking the closure returned by `Schedule.lock`: the captured mutex is
the one allocated at setup time, so every invocation runs `lockRun` with the
same instance. -/
def LockClosure.invoke (c : LockClosure) (env : GuardEnv) (s : GuardState) :
    GuardState × List GEvent :=
  lockRun env c.mutex s

/-- The mutex-instance id carried by a mutex event, if any. -/
def GEvent.instId : GEvent → Option Nat
  | .lockOk mid => some mid
  | .lockFail mid => some mid
  | .unlockOk mid => some mid
  | .unlockFail mid => some mid
  | .relockOk mid => some mid
  | .relockFail mid => some mid
  | .lastUnlockOk mid => some mid
  | .lastUnlockFail mid => some mid
  | _ => none

/-- A job as registered by `Schedule.AddJob` (distcron.go:19-23,75-83).  The
body `Func` is irrelevant to startup behaviour and is not carried here; a
body can only run once the cron engine has been started. -/
structure Job where
  spec : String
  name : String
  deriving DecidableEq, Repr

/-- `Schedule.Run` (distcron.go:92-147) over the outcome of the startup PING
(line 108) and a validity oracle `parse` for cron time-specs (`c.AddFunc`
at line 129 errors exactly on a malformed spec).  The first component is the
value `Run` returns: the PING error, or the error of the first `AddFunc` that
rejects its spec, or `nil` after the clean signal-and-drain shutdown
(lines 137-146).  The second component records whether `c.Run()` (line 137)
was reached - job bodies can fire only in that case. -/
def runSchedule (pingOk : Bool) (parse : String → Bool) (jobs : List Job) :
    Except String Unit × Bool :=
  if pingOk = false then
    (Except.error "redis ping failed", false)
  else
    match jobs.find? (fun j => !parse j.spec) with
    | some j => (Except.error ("invalid time spec: " ++ j.spec), false)
    | none => (Except.ok (), true)

end Distcron

namespace Distcron.Race

/-!
Interleaving model of `n` processes racing one firing of the same job.  Each
process runs the protocol of distcron.go:159-212 once against one shared
store (one marker key, one redsync lock for `GLOBAL-name`).  Every external
call is one atomic transition; every call outcome the Go code tolerates
(lock errors, GET/SET/DEL errors, `Unlock()` returning false) is a
nondeterministic branch.  The redsync lock is modelled without expiry, and an
unlock by a process that does not hold the lock does not release another
holder (redsync unlocks only a key holding the caller's own random value).
`delDone` is a history flag recording that some successful `DEL` of the
marker has happened: the firing window of the racing processes is over once
a winner has completed its cleanup, so states with `delDone = false` are
exactly the states within the racing window.
-/

/-- Program counter of one process inside the guard closure: before line 161
(`start`), holding the lock before the GET (`locked`), GET returned nil and
the SET is next (`ready`), marker written (`marked`), past the first unlock
(`unlocked`), body finished (`bodyDone`), past the re-lock attempt
(`relocked`), past the DEL attempt (`deleted`), returned (`done`). -/
inductive PC where
  | start | locked | ready | marked | unlocked | bodyDone | relocked | deleted | done
  deriving DecidableEq, Repr

/-- The claim window: a process between its successful marker SET and its
DEL attempt. -/
def PC.claiming : PC → Bool
  | .marked => true
  | .unlocked => true
  | .bodyDone => true
  | .relocked => true
  | _ => false

/-- Shared-store state plus the local state of every process. -/
structure Sys (n : Nat) where
  /-- marker key for the job is present in the store. -/
  marker : Bool
  /-- current holder of the `GLOBAL-name` redsync lock. -/
  owner : Option (Fin n)
  /-- program counter of each process. -/
  pc : Fin n → PC
  /-- process has executed the job body `f()`. -/
  ran : Fin n → Bool
  /-- some successful DEL of the marker has happened (history flag). -/
  delDone : Bool

/-- All processes at line 159, store empty, lock free. -/
def Sys.init (n : Nat) : Sys n :=
  { marker := false, owner := none, pc := fun _ => PC.start,
    ran := fun _ => false, delDone := false }

/-- One atomic transition of one process, following distcron.go:159-212. -/
inductive Step (n : Nat) : Sys n → Sys n → Prop where
  /-- line 161 succeeds: the lock was free and `i` takes it. -/
  | lockOk (s : Sys n) (i : Fin n) :
      s.pc i = PC.start → s.owner = none →
      Step n s { s with owner := some i,
                        pc := Function.update s.pc i PC.locked }
  /-- line 161 fails (contention or store error): log and return. -/
  | lockFail (s : Sys n) (i : Fin n) :
      s.pc i = PC.start →
      Step n s { s with pc := Function.update s.pc i PC.done }
  /-- line 168 errors: log and return, keeping the lock. -/
  | getFail (s : Sys n) (i : Fin n) :
      s.pc i = PC.locked →
      Step n s { s with pc := Function.update s.pc i PC.done }
  /-- line 174: marker present, someone else claimed the firing; return. -/
  | getBusy (s : Sys n) (i : Fin n) :
      s.pc i = PC.locked → s.marker = true →
      Step n s { s with pc := Function.update s.pc i PC.done }
  /-- line 174: marker absent, proceed to the SET. -/
  | getFree (s : Sys n) (i : Fin n) :
      s.pc i = PC.locked → s.marker = false →
      Step n s { s with pc := Function.update s.pc i PC.ready }
  /-- line 182 errors: log and return, keeping the lock. -/
  | setFail (s : Sys n) (i : Fin n) :
      s.pc i = PC.ready →
      Step n s { s with pc := Function.update s.pc i PC.done }
  /-- line 182 succeeds: the marker is now in the store. -/
  | setOk (s : Sys n) (i : Fin n) :
      s.pc i = PC.ready →
      Step n s { s with marker := true,
                        pc := Function.update s.pc i PC.marked }
  /-- line 187 succeeds: the lock is released before the body. -/
  | unlockOk (s : Sys n) (i : Fin n) :
      s.pc i = PC.marked → s.owner = some i →
      Step n s { s with owner := none,
                        pc := Function.update s.pc i PC.unlocked }
  /-- line 187 returns false: logged, execution continues. -/
  | unlockFail (s : Sys n) (i : Fin n) :
      s.pc i = PC.marked →
      Step n s { s with pc := Function.update s.pc i PC.unlocked }
  /-- line 194: the job body runs. -/
  | runBody (s : Sys n) (i : Fin n) :
      s.pc i = PC.unlocked →
      Step n s { s with pc := Function.update s.pc i PC.bodyDone,
                        ran := Function.update s.ran i true }
  /-- line 200 succeeds: the lock was free and `i` retakes it. -/
  | relockOk (s : Sys n) (i : Fin n) :
      s.pc i = PC.bodyDone → s.owner = none →
      Step n s { s with owner := some i,
                        pc := Function.update s.pc i PC.relocked }
  /-- line 200 fails: logged, execution continues without the lock. -/
  | relockFail (s : Sys n) (i : Fin n) :
      s.pc i = PC.bodyDone →
      Step n s { s with pc := Function.update s.pc i PC.relocked }
  /-- line 205 succeeds: the marker is removed. -/
  | delOk (s : Sys n) (i : Fin n) :
      s.pc i = PC.relocked →
      Step n s { s with marker := false, delDone := true,
                        pc := Function.update s.pc i PC.deleted }
  /-- line 205 errors: logged, the marker stays. -/
  | delFail (s : Sys n) (i : Fin n) :
      s.pc i = PC.relocked →
      Step n s { s with pc := Function.update s.pc i PC.deleted }
  /-- line 209 succeeds. -/
  | lastUnlockOk (s : Sys n) (i : Fin n) :
      s.pc i = PC.deleted → s.owner = some i →
      Step n s { s with owner := none,
                        pc := Function.update s.pc i PC.done }
  /-- line 209 returns false: logged, the closure returns. -/
  | lastUnlockFail (s : Sys n) (i : Fin n) :
      s.pc i = PC.deleted →
      Step n s { s with pc := Function.update s.pc i PC.done }

/-- States reachable from the all-idle initial state. -/
def Reachable (n : Nat) (s : Sys n) : Prop :=
  Relation.ReflTransGen (Step n) (Sys.init n) s

/-- A five-step demonstration run of two processes: process 0 acquires the
lock, sees no marker, writes the marker, unlocks and runs the body, while
process 1 has not moved; no DEL has happened yet. -/
def raceDemoState : Sys 2 :=
  { marker := true, owner := none,
    pc := Function.update (Function.update (Function.update (Function.update
            (Function.update (fun _ => PC.start) 0 PC.locked) 0 PC.ready)
            0 PC.marked) 0 PC.unlocked) 0 PC.bodyDone,
    ran := Function.update (fun _ => false) 0 true,
    delDone := false }

/-- Inductive invariant of the protocol. -/
structure Inv {n : Nat} (s : Sys n) : Prop where
  /-- a process between its lock acquisition and its SET holds the lock. -/
  holds : ∀ i, s.pc i = PC.locked ∨ s.pc i = PC.ready → s.owner = some i
  /-- a process that passed the nil-check and has not yet SET sees no marker. -/
  readyFree : ∀ i, s.pc i = PC.ready → s.marker = false
  /-- while some process is claiming, the marker is in the store. -/
  claimMarked : ∀ i, (s.pc i).claiming = true → s.marker = true
  /-- at most one process is ever claiming. -/
  claimUnique : ∀ i j, (s.pc i).claiming = true → (s.pc j).claiming = true → i = j
  /-- before any DEL succeeded, a process that ran left the marker in place. -/
  ranMarked : ∀ i, s.delDone = false → s.ran i = true → s.marker = true
  /-- before any DEL succeeded, at most one process ran or is claiming. -/
  winnerUnique : ∀ i j, s.delDone = false →
      (s.ran i = true ∨ (s.pc i).claiming = true) →
      (s.ran j = true ∨ (s.pc j).claiming = true) → i = j

theorem Inv.initial (n : Nat) : Inv (Sys.init n) := by
  refine ⟨?_, ?_, ?_, ?_, ?_, ?_⟩ <;>
    simp [Sys.init, PC.claiming]

theorem claiming_update_off {n : Nat} {f : Fin n → PC} {i j : Fin n} {v : PC}
    (hv : v.claiming = false) (h : (Function.update f i v j).claiming = true) :
    j ≠ i ∧ (f j).claiming = true := by
  by_cases hji : j = i
  · subst hji
    rw [Function.update_same, hv] at h
    exact Bool.noConfusion h
  · rw [Function.update_noteq hji] at h
    exact ⟨hji, h⟩

theorem claiming_update_keep {n : Nat} {f : Fin n → PC} {i j : Fin n} {v : PC}
    (hfi : (f i).claiming = true) (h : (Function.update f i v j).claiming = true) :
    (f j).claiming = true := by
  by_cases hji : j = i
  · subst hji; exact hfi
  · rw [Function.update_noteq hji] at h
    exact h

theorem pc_update_off {n : Nat} {f : Fin n → PC} {i j : Fin n} {v w : PC}
    (hv : v ≠ w) (h : Function.update f i v j = w) : j ≠ i ∧ f j = w := by
  by_cases hji : j = i
  · subst hji
    rw [Function.update_same] at h
    exact absurd h hv
  · rw [Function.update_noteq hji] at h
    exact ⟨hji, h⟩

/-- Moving one process to a non-claiming, non-critical program point while
leaving the store, the lock and the run flags unchanged preserves the
invariant (all the pure skip/return transitions). -/
theorem Inv.retire {n : Nat} {s : Sys n} (h : Inv s) (i : Fin n) {v : PC}
    (hvc : v.claiming = false) (hvl : v ≠ PC.locked) (hvr : v ≠ PC.ready) :
    Inv { s with pc := Function.update s.pc i v } := by
  obtain ⟨h1, h2, h3, h4, h5, h6⟩ := h
  refine ⟨?_, ?_, ?_, ?_, ?_, ?_⟩
  · intro j hj
    rcases hj with hj | hj
    · exact h1 j (Or.inl (pc_update_off hvl hj).2)
    · exact h1 j (Or.inr (pc_update_off hvr hj).2)
  · intro j hj
    exact h2 j (pc_update_off hvr hj).2
  · intro j hj
    exact h3 j (claiming_update_off hvc hj).2
  · intro j k hj hk
    exact h4 j k (claiming_update_off hvc hj).2 (claiming_update_off hvc hk).2
  · exact h5
  · intro j k hd hj hk
    refine h6 j k hd ?_ ?_
    · rcases hj with hj | hj
      · exact Or.inl hj
      · exact Or.inr (claiming_update_off hvc hj).2
    · rcases hk with hk | hk
      · exact Or.inl hk
      · exact Or.inr (claiming_update_off hvc hk).2

/-- Moving one claiming process to another claiming, non-critical program
point while leaving the store, the lock and the run flags unchanged preserves
the invariant (the failed-unlock and failed-relock transitions). -/
theorem Inv.claimMove {n : Nat} {s : Sys n} (h : Inv s) (i : Fin n) {v : PC}
    (hpcc : (s.pc i).claiming = true)
    (hvl : v ≠ PC.locked) (hvr : v ≠ PC.ready) :
    Inv { s with pc := Function.update s.pc i v } := by
  obtain ⟨h1, h2, h3, h4, h5, h6⟩ := h
  refine ⟨?_, ?_, ?_, ?_, ?_, ?_⟩
  · intro j hj
    rcases hj with hj | hj
    · exact h1 j (Or.inl (pc_update_off hvl hj).2)
    · exact h1 j (Or.inr (pc_update_off hvr hj).2)
  · intro j hj
    exact h2 j (pc_update_off hvr hj).2
  · intro j hj
    exact h3 j (claiming_update_keep hpcc hj)
  · intro j k hj hk
    exact h4 j k (claiming_update_keep hpcc hj) (claiming_update_keep hpcc hk)
  · exact h5
  · intro j k hd hj hk
    refine h6 j k hd ?_ ?_
    · rcases hj with hj | hj
      · exact Or.inl hj
      · exact Or.inr (claiming_update_keep hpcc hj)
    · rcases hk with hk | hk
      · exact Or.inl hk
      · exact Or.inr (claiming_update_keep hpcc hk)

/-- Every transition preserves the invariant. -/
theorem Inv.preserved {n : Nat} {s t : Sys n} (h : Inv s) (st : Step n s t) :
    Inv t := by
  cases st with
  | lockFail i hpc => exact h.retire i (by decide) (by decide) (by decide)
  | getFail i hpc => exact h.retire i (by decide) (by decide) (by decide)
  | getBusy i hpc hm => exact h.retire i (by decide) (by decide) (by decide)
  | setFail i hpc => exact h.retire i (by decide) (by decide) (by decide)
  | delFail i hpc => exact h.retire i (by decide) (by decide) (by decide)
  | lastUnlockFail i hpc => exact h.retire i (by decide) (by decide) (by decide)
  | unlockFail i hpc =>
      exact h.claimMove i (by rw [hpc]; decide) (by decide) (by decide)
  | relockFail i hpc =>
      exact h.claimMove i (by rw [hpc]; decide) (by decide) (by decide)
  | lockOk i hpc how =>
      obtain ⟨h1, h2, h3, h4, h5, h6⟩ := h
      refine ⟨?_, ?_, ?_, ?_, ?_, ?_⟩ <;> dsimp only
      · intro j hj
        by_cases hji : j = i
        · subst hji; rfl
        · rw [Function.update_noteq hji] at hj
          have hoj := h1 j hj
          rw [how] at hoj
          exact Option.noConfusion hoj
      · intro j hj
        by_cases hji : j = i
        · subst hji
          rw [Function.update_same] at hj
          exact absurd hj (by decide)
        · rw [Function.update_noteq hji] at hj
          exact h2 j hj
      · intro j hj
        exact h3 j (claiming_update_off (by decide) hj).2
      · intro j k hj hk
        exact h4 j k (claiming_update_off (by decide) hj).2 (claiming_update_off (by decide) hk).2
      · exact h5
      · intro j k hd hj hk
        refine h6 j k hd ?_ ?_
        · rcases hj with hj | hj
          · exact Or.inl hj
          · exact Or.inr (claiming_update_off (by decide) hj).2
        · rcases hk with hk | hk
          · exact Or.inl hk
          · exact Or.inr (claiming_update_off (by decide) hk).2
  | getFree i hpc hm =>
      obtain ⟨h1, h2, h3, h4, h5, h6⟩ := h
      refine ⟨?_, ?_, ?_, ?_, ?_, ?_⟩ <;> dsimp only
      · intro j hj
        by_cases hji : j = i
        · rw [hji]
          exact h1 i (Or.inl hpc)
        · rw [Function.update_noteq hji] at hj
          exact h1 j hj
      · intro j hj
        by_cases hji : j = i
        · exact hm
        · rw [Function.update_noteq hji] at hj
          exact h2 j hj
      · intro j hj
        exact h3 j (claiming_update_off (by decide) hj).2
      · intro j k hj hk
        exact h4 j k (claiming_update_off (by decide) hj).2 (claiming_update_off (by decide) hk).2
      · exact h5
      · intro j k hd hj hk
        refine h6 j k hd ?_ ?_
        · rcases hj with hj | hj
          · exact Or.inl hj
          · exact Or.inr (claiming_update_off (by decide) hj).2
        · rcases hk with hk | hk
          · exact Or.inl hk
          · exact Or.inr (claiming_update_off (by decide) hk).2
  | setOk i hpc =>
      obtain ⟨h1, h2, h3, h4, h5, h6⟩ := h
      have key : ∀ m, (Function.update s.pc i PC.marked m).claiming = true → m = i := by
        intro m hm
        by_cases hmi : m = i
        · exact hmi
        · exfalso
          rw [Function.update_noteq hmi] at hm
          have hmt := h3 m hm
          have hmf := h2 i hpc
          rw [hmf] at hmt
          exact Bool.noConfusion hmt
      have keyRan : ∀ m, s.delDone = false → s.ran m = true → False := by
        intro m hd hr
        have hmt := h5 m hd hr
        have hmf := h2 i hpc
        rw [hmf] at hmt
        exact Bool.noConfusion hmt
      refine ⟨?_, ?_, ?_, ?_, ?_, ?_⟩ <;> dsimp only
      · intro j hj
        by_cases hji : j = i
        · subst hji
          rw [Function.update_same] at hj
          rcases hj with hj | hj <;> exact absurd hj (by decide)
        · rw [Function.update_noteq hji] at hj
          exact h1 j hj
      · intro j hj
        exfalso
        by_cases hji : j = i
        · subst hji
          rw [Function.update_same] at hj
          exact absurd hj (by decide)
        · rw [Function.update_noteq hji] at hj
          have hoj := h1 j (Or.inr hj)
          have hoi := h1 i (Or.inr hpc)
          rw [hoj] at hoi
          exact hji (Option.some.inj hoi)
      · intro j _
        rfl
      · intro j k hj hk
        rw [key j hj, key k hk]
      · intro j _ _
        rfl
      · intro j k hd hj hk
        have key2 : ∀ m, (s.ran m = true ∨
            (Function.update s.pc i PC.marked m).claiming = true) → m = i := by
          intro m hm
          rcases hm with hr | hc
          · exact absurd hr (fun hr => keyRan m hd hr)
          · exact key m hc
        rw [key2 j hj, key2 k hk]
  | unlockOk i hpc how =>
      obtain ⟨h1, h2, h3, h4, h5, h6⟩ := h
      have hpcc : (s.pc i).claiming = true := by rw [hpc]; decide
      refine ⟨?_, ?_, ?_, ?_, ?_, ?_⟩ <;> dsimp only
      · intro j hj
        exfalso
        have hj' : s.pc j = PC.locked ∨ s.pc j = PC.ready := by
          rcases hj with hj | hj
          · exact Or.inl (pc_update_off (by decide) hj).2
          · exact Or.inr (pc_update_off (by decide) hj).2
        have hoj := h1 j hj'
        rw [how] at hoj
        obtain rfl := Option.some.inj hoj
        rcases hj' with hj' | hj' <;> rw [hpc] at hj' <;>
          exact absurd hj' (by decide)
      · intro j hj
        exact h2 j (pc_update_off (by decide) hj).2
      · intro j hj
        exact h3 j (claiming_update_keep hpcc hj)
      · intro j k hj hk
        exact h4 j k (claiming_update_keep hpcc hj) (claiming_update_keep hpcc hk)
      · exact h5
      · intro j k hd hj hk
        refine h6 j k hd ?_ ?_
        · rcases hj with hj | hj
          · exact Or.inl hj
          · exact Or.inr (claiming_update_keep hpcc hj)
        · rcases hk with hk | hk
          · exact Or.inl hk
          · exact Or.inr (claiming_update_keep hpcc hk)
  | runBody i hpc =>
      obtain ⟨h1, h2, h3, h4, h5, h6⟩ := h
      have hpcc : (s.pc i).claiming = true := by rw [hpc]; decide
      refine ⟨?_, ?_, ?_, ?_, ?_, ?_⟩ <;> dsimp only
      · intro j hj
        rcases hj with hj | hj
        · exact h1 j (Or.inl (pc_update_off (by decide) hj).2)
        · exact h1 j (Or.inr (pc_update_off (by decide) hj).2)
      · intro j hj
        exact h2 j (pc_update_off (by decide) hj).2
      · intro j hj
        exact h3 j (claiming_update_keep hpcc hj)
      · intro j k hj hk
        exact h4 j k (claiming_update_keep hpcc hj) (claiming_update_keep hpcc hk)
      · intro j hd hr
        by_cases hji : j = i
        · exact h3 i hpcc
        · rw [Function.update_noteq hji] at hr
          exact h5 j hd hr
      · intro j k hd hj hk
        have map : ∀ m, (Function.update s.ran i true m = true ∨
            (Function.update s.pc i PC.bodyDone m).claiming = true) →
            (s.ran m = true ∨ (s.pc m).claiming = true) := by
          intro m hm
          by_cases hmi : m = i
          · subst hmi; exact Or.inr hpcc
          · rcases hm with hr | hc
            · rw [Function.update_noteq hmi] at hr; exact Or.inl hr
            · rw [Function.update_noteq hmi] at hc; exact Or.inr hc
        exact h6 j k hd (map j hj) (map k hk)
  | relockOk i hpc how =>
      obtain ⟨h1, h2, h3, h4, h5, h6⟩ := h
      have hpcc : (s.pc i).claiming = true := by rw [hpc]; decide
      refine ⟨?_, ?_, ?_, ?_, ?_, ?_⟩ <;> dsimp only
      · intro j hj
        exfalso
        have hj' : s.pc j = PC.locked ∨ s.pc j = PC.ready := by
          rcases hj with hj | hj
          · exact Or.inl (pc_update_off (by decide) hj).2
          · exact Or.inr (pc_update_off (by decide) hj).2
        have hoj := h1 j hj'
        rw [how] at hoj
        exact Option.noConfusion hoj
      · intro j hj
        exact h2 j (pc_update_off (by decide) hj).2
      · intro j hj
        exact h3 j (claiming_update_keep hpcc hj)
      · intro j k hj hk
        exact h4 j k (claiming_update_keep hpcc hj) (claiming_update_keep hpcc hk)
      · exact h5
      · intro j k hd hj hk
        refine h6 j k hd ?_ ?_
        · rcases hj with hj | hj
          · exact Or.inl hj
          · exact Or.inr (claiming_update_keep hpcc hj)
        · rcases hk with hk | hk
          · exact Or.inl hk
          · exact Or.inr (claiming_update_keep hpcc hk)
  | delOk i hpc =>
      obtain ⟨h1, h2, h3, h4, h5, h6⟩ := h
      have hpcc : (s.pc i).claiming = true := by rw [hpc]; decide
      refine ⟨?_, ?_, ?_, ?_, ?_, ?_⟩ <;> dsimp only
      · intro j hj
        rcases hj with hj | hj
        · exact h1 j (Or.inl (pc_update_off (by decide) hj).2)
        · exact h1 j (Or.inr (pc_update_off (by decide) hj).2)
      · intro j _
        rfl
      · intro j hj
        exfalso
        obtain ⟨hji, hcj⟩ := claiming_update_off (by decide) hj
        exact hji (h4 j i hcj hpcc)
      · intro j k hj hk
        exfalso
        obtain ⟨hji, hcj⟩ := claiming_update_off (by decide) hj
        exact hji (h4 j i hcj hpcc)
      · intro j hd _
        exact Bool.noConfusion hd
      · intro j k hd _ _
        exact Bool.noConfusion hd
  | lastUnlockOk i hpc how =>
      obtain ⟨h1, h2, h3, h4, h5, h6⟩ := h
      refine ⟨?_, ?_, ?_, ?_, ?_, ?_⟩ <;> dsimp only
      · intro j hj
        exfalso
        have hj' : s.pc j = PC.locked ∨ s.pc j = PC.ready := by
          rcases hj with hj | hj
          · exact Or.inl (pc_update_off (by decide) hj).2
          · exact Or.inr (pc_update_off (by decide) hj).2
        have hoj := h1 j hj'
        rw [how] at hoj
        obtain rfl := Option.some.inj hoj
        rcases hj' with hj' | hj' <;> rw [hpc] at hj' <;>
          exact absurd hj' (by decide)
      · intro j hj
        exact h2 j (pc_update_off (by decide) hj).2
      · intro j hj
        exact h3 j (claiming_update_off (by decide) hj).2
      · intro j k hj hk
        exact h4 j k (claiming_update_off (by decide) hj).2 (claiming_update_off (by decide) hk).2
      · exact h5
      · intro j k hd hj hk
        refine h6 j k hd ?_ ?_
        · rcases hj with hj | hj
          · exact Or.inl hj
          · exact Or.inr (claiming_update_off (by decide) hj).2
        · rcases hk with hk | hk
          · exact Or.inl hk
          · exact Or.inr (claiming_update_off (by decide) hk).2

/-- The invariant holds in every reachable state. -/
theorem Inv.of_reachable {n : Nat} {s : Sys n} (h : Reachable n s) : Inv s := by
  induction h with
  | refl => exact Inv.initial n
  | tail _ st ih => exact ih.preserved st

/-- The demonstration state is reachable: process 0 performs lock, nil GET,
SET, unlock and runs the body while process 1 is still idle. -/
theorem raceDemo_reachable : Reachable 2 raceDemoState := by
  refine Relation.ReflTransGen.head (Step.lockOk _ 0 rfl rfl) ?_
  refine Relation.ReflTransGen.head (Step.getFree _ 0 (by decide) rfl) ?_
  refine Relation.ReflTransGen.head (Step.setOk _ 0 (by decide)) ?_
  refine Relation.ReflTransGen.head (Step.unlockOk _ 0 (by decide) rfl) ?_
  refine Relation.ReflTransGen.head (Step.runBody _ 0 (by decide)) ?_
  exact Relation.ReflTransGen.refl

/-- C1: for every job name and any number of processes (at least two) sharing
the same store and racing the same scheduled firing of that job, at most one
process executes the job body for that firing.  Racing the same firing is
formalised as: the run has not yet left the firing window, i.e. no process
has completed the post-body marker deletion (`delDone = false`); within that
window at most one process ever runs the body. -/
theorem C1_at_most_one_body_per_firing (n : Nat) (_hn : 2 ≤ n) {s : Sys n}
    (hreach : Reachable n s) (hwindow : s.delDone = false) (i j : Fin n)
    (hi : s.ran i = true) (hj : s.ran j = true) : i = j :=
  (Inv.of_reachable hreach).winnerUnique i j hwindow (Or.inl hi) (Or.inl hj)

/-- The mutual-exclusion theorem applies to a genuine run: two processes,
process 0 has acquired, claimed and run the body, no deletion yet. -/
theorem C1_witness :
    2 ≤ 2 ∧ raceDemoState.delDone = false ∧ raceDemoState.ran 0 = true ∧
      (0 : Fin 2) = 0 :=
  ⟨by decide, rfl, by decide,
    C1_at_most_one_body_per_firing 2 (by decide) raceDemo_reachable rfl 0 0
      (by decide) (by decide)⟩

end Distcron.Race

namespace Distcron

/-- C2: whenever the marker read at distcron.go:168 returns a non-nil value,
the wrapper returns without invoking the job body and without issuing any SET
for the marker key, and the marker is left exactly as it was. -/
theorem C2_marker_present_skips (env : GuardEnv) (m : DMutex) (s : GuardState)
    (v : Nat) (hl : env.lockErr = false) (hg : env.getErr = false)
    (hm : s.marker = some v) :
    GEvent.bodyRun ∉ (lockRun env m s).2 ∧
    GEvent.setOk ∉ (lockRun env m s).2 ∧
    GEvent.setFail ∉ (lockRun env m s).2 ∧
    (lockRun env m s).1.marker = some v := by
  simp [lockRun, hl, hg, hm]

/-- The marker-present skip on a concrete invocation: marker `1` in the
store, all store calls healthy. -/
theorem C2_witness :
    GEvent.bodyRun ∉
      (lockRun ⟨false, false, false, true, false, false, true⟩
        ⟨5, "GLOBAL-job"⟩ ⟨some 1, false⟩).2 ∧
    GEvent.setOk ∉
      (lockRun ⟨false, false, false, true, false, false, true⟩
        ⟨5, "GLOBAL-job"⟩ ⟨some 1, false⟩).2 ∧
    GEvent.setFail ∉
      (lockRun ⟨false, false, false, true, false, false, true⟩
        ⟨5, "GLOBAL-job"⟩ ⟨some 1, false⟩).2 ∧
    (lockRun ⟨false, false, false, true, false, false, true⟩
      ⟨5, "GLOBAL-job"⟩ ⟨some 1, false⟩).1.marker = some 1 :=
  C2_marker_present_skips _ _ _ 1 rfl rfl rfl

/-- C3: if the mutex acquisition, the marker read or the marker write fails,
the wrapper returns without invoking the job body (fail-closed). -/
theorem C3_fail_closed (env : GuardEnv) (m : DMutex) (s : GuardState)
    (h : env.lockErr = true ∨ env.getErr = true ∨ env.setErr = true) :
    GEvent.bodyRun ∉ (lockRun env m s).2 := by
  obtain ⟨l, g, se, u, r, d, f⟩ := env
  rcases hsm : s.marker with _ | v <;> cases l <;> cases g <;> cases se <;>
    simp_all [lockRun]

/-- Fail-closed on a concrete invocation: the initial lock acquisition
errors out. -/
theorem C3_witness :
    GEvent.bodyRun ∉
      (lockRun ⟨true, false, false, true, false, false, true⟩
        ⟨5, "GLOBAL-job"⟩ ⟨none, false⟩).2 :=
  C3_fail_closed _ _ _ (Or.inl rfl)

/-- C4: when all nine steps succeed (lock, nil GET, SET, unlock, body,
re-lock, DEL, unlock), the invocation ends with the marker key absent and
the mutex not held: the guard's store state is fully restored. -/
theorem C4_success_restores_state (env : GuardEnv) (m : DMutex)
    (s : GuardState) (hl : env.lockErr = false) (hg : env.getErr = false)
    (hm : s.marker = none) (hs : env.setErr = false)
    (hu : env.unlockRet = true) (hr : env.relockErr = false)
    (hd : env.delErr = false) (hf : env.lastUnlockRet = true) :
    (lockRun env m s).1.marker = none ∧
    (lockRun env m s).1.mutexHeld = false := by
  simp [lockRun, hl, hg, hm, hs, hu, hr, hd, hf]

/-- State restoration on a concrete all-success invocation. -/
theorem C4_witness :
    (lockRun ⟨false, false, false, true, false, false, true⟩
      ⟨5, "GLOBAL-job"⟩ ⟨none, false⟩).1.marker = none ∧
    (lockRun ⟨false, false, false, true, false, false, true⟩
      ⟨5, "GLOBAL-job"⟩ ⟨none, false⟩).1.mutexHeld = false :=
  C4_success_restores_state _ _ _ rfl rfl rfl rfl rfl rfl rfl rfl

/-- C5: whenever the job body runs, the mutex-release step (line 187) occurs
strictly before the body invocation in the event order: the mutex is held
only for the check-then-set window, the marker alone covers the body. -/
theorem C5_unlock_precedes_body (env : GuardEnv) (m : DMutex)
    (s : GuardState) (h : GEvent.bodyRun ∈ (lockRun env m s).2) :
    ∃ rest, (lockRun env m s).2 =
      GEvent.lockOk m.id :: GEvent.getOk none :: GEvent.setOk ::
      (if env.unlockRet then GEvent.unlockOk m.id
        else GEvent.unlockFail m.id) ::
      GEvent.bodyRun :: rest := by
  obtain ⟨l, g, se, u, r, d, f⟩ := env
  rcases hsm : s.marker with _ | v <;> cases l <;> cases g <;> cases se <;>
    simp_all [lockRun]

/-- The unlock-before-body ordering on a concrete invocation in which the
unlock succeeds. -/
theorem C5_witness :
    ∃ rest, (lockRun ⟨false, false, false, true, false, false, true⟩
        ⟨5, "GLOBAL-job"⟩ ⟨none, false⟩).2 =
      GEvent.lockOk 5 :: GEvent.getOk none :: GEvent.setOk ::
      (if (true : Bool) then GEvent.unlockOk 5 else GEvent.unlockFail 5) ::
      GEvent.bodyRun :: rest :=
  C5_unlock_precedes_body ⟨false, false, false, true, false, false, true⟩
    ⟨5, "GLOBAL-job"⟩ ⟨none, false⟩ (by decide)

/-- C6 counterexample: on a concrete all-success invocation of the closure
built by `Schedule.lock` with instance id 7, the step-7 re-acquisition event
carries the same instance id 7 as the step-1 acquisition (the same captured
`mutex` of distcron.go:156 is used at lines 161 and 200), and a second
invocation of the same closure uses id 7 again - no fresh instance is
constructed per invocation or for the re-acquisition. -/
theorem C6_counterexample :
    ((lockSetup 7 "job").invoke ⟨false, false, false, true, false, false, true⟩
        ⟨none, false⟩).2 =
      [GEvent.lockOk 7, GEvent.getOk none, GEvent.setOk, GEvent.unlockOk 7,
       GEvent.bodyRun, GEvent.relockOk 7, GEvent.delOk,
       GEvent.lastUnlockOk 7] ∧
    ((lockSetup 7 "job").invoke ⟨false, false, false, true, false, false, true⟩
        (((lockSetup 7 "job").invoke
          ⟨false, false, false, true, false, false, true⟩
          ⟨none, false⟩).1)).2 =
      [GEvent.lockOk 7, GEvent.getOk none, GEvent.setOk, GEvent.unlockOk 7,
       GEvent.bodyRun, GEvent.relockOk 7, GEvent.delOk,
       GEvent.lastUnlockOk 7] := by
  decide

/-- C6 amended: `Schedule.lock` constructs one mutex instance per job, at
registration time, and every invocation of the returned closure reuses that
single instance for every mutex operation, including the post-body
re-acquisition: every mutex event carries the instance id fixed at setup. -/
theorem C6_amended_single_instance (freshId : Nat) (name : String)
    (env : GuardEnv) (s : GuardState) :
    (((lockSetup freshId name).invoke env s).2.all
      (fun e => e.instId == some freshId || e.instId == none)) = true := by
  obtain ⟨l, g, se, u, r, d, f⟩ := env
  rcases hsm : s.marker with _ | v <;> cases l <;> cases g <;> cases se <;>
    cases u <;> cases r <;> cases d <;> cases f <;>
    simp [lockRun, lockSetup, LockClosure.invoke, GEvent.instId, hsm]

/-- C7 counterexample: on a concrete invocation in which the body has run
and the post-body re-acquisition (line 200) fails, the marker deletion still
occurs - the DEL is issued and succeeds, and the end state has no marker.
The code only logs the re-lock error and continues to the DEL. -/
theorem C7_counterexample :
    GEvent.bodyRun ∈
      (lockRun ⟨false, false, false, true, true, false, true⟩
        ⟨1, "GLOBAL-job"⟩ ⟨none, false⟩).2 ∧
    GEvent.relockFail 1 ∈
      (lockRun ⟨false, false, false, true, true, false, true⟩
        ⟨1, "GLOBAL-job"⟩ ⟨none, false⟩).2 ∧
    GEvent.delOk ∈
      (lockRun ⟨false, false, false, true, true, false, true⟩
        ⟨1, "GLOBAL-job"⟩ ⟨none, false⟩).2 ∧
    (lockRun ⟨false, false, false, true, true, false, true⟩
      ⟨1, "GLOBAL-job"⟩ ⟨none, false⟩).1.marker = none := by
  decide

/-- C7 amended: when the body has run and the post-body re-acquisition
fails, the failure is logged and the wrapper still proceeds to the marker
deletion; the marker is removed whenever that DEL succeeds, and leaks only
when the DEL itself also fails. -/
theorem C7_relock_fail_still_deletes (env : GuardEnv) (m : DMutex)
    (s : GuardState) (hl : env.lockErr = false) (hg : env.getErr = false)
    (hm : s.marker = none) (hs : env.setErr = false)
    (hr : env.relockErr = true) :
    GEvent.bodyRun ∈ (lockRun env m s).2 ∧
    GEvent.relockFail m.id ∈ (lockRun env m s).2 ∧
    (env.delErr = false → GEvent.delOk ∈ (lockRun env m s).2 ∧
      (lockRun env m s).1.marker = none) ∧
    (env.delErr = true → GEvent.delFail ∈ (lockRun env m s).2 ∧
      (lockRun env m s).1.marker = some 1) := by
  rcases hd : env.delErr <;> rcases hu : env.unlockRet <;>
    rcases hf : env.lastUnlockRet <;>
    simp [lockRun, hl, hg, hm, hs, hr, hd, hu, hf]

/-- The amended C7 behaviour on a concrete invocation (DEL succeeds). -/
theorem C7_witness :
    GEvent.bodyRun ∈
      (lockRun ⟨false, false, false, true, true, false, true⟩
        ⟨1, "GLOBAL-job"⟩ ⟨none, false⟩).2 ∧
    GEvent.relockFail 1 ∈
      (lockRun ⟨false, false, false, true, true, false, true⟩
        ⟨1, "GLOBAL-job"⟩ ⟨none, false⟩).2 ∧
    ((false : Bool) = false → GEvent.delOk ∈
      (lockRun ⟨false, false, false, true, true, false, true⟩
        ⟨1, "GLOBAL-job"⟩ ⟨none, false⟩).2 ∧
      (lockRun ⟨false, false, false, true, true, false, true⟩
        ⟨1, "GLOBAL-job"⟩ ⟨none, false⟩).1.marker = none) ∧
    ((false : Bool) = true → GEvent.delFail ∈
      (lockRun ⟨false, false, false, true, true, false, true⟩
        ⟨1, "GLOBAL-job"⟩ ⟨none, false⟩).2 ∧
      (lockRun ⟨false, false, false, true, true, false, true⟩
        ⟨1, "GLOBAL-job"⟩ ⟨none, false⟩).1.marker = some 1) :=
  C7_relock_fail_still_deletes _ _ _ rfl rfl rfl rfl rfl

/-- C8: `Run` returns a non-nil error when the startup PING fails or when
some registered job's time-spec is malformed, and in both cases the cron
engine is never started, so no registered job body ever runs; when the PING
succeeds and every spec is valid, the engine runs and after the
signal-and-drain shutdown `Run` returns nil. -/
theorem C8_run_startup (pingOk : Bool) (parse : String → Bool)
    (jobs : List Job) :
    (pingOk = false →
      (runSchedule pingOk parse jobs).1 = Except.error "redis ping failed" ∧
      (runSchedule pingOk parse jobs).2 = false) ∧
    (∀ j, j ∈ jobs → parse j.spec = false →
      (∃ e, (runSchedule pingOk parse jobs).1 = Except.error e) ∧
      (runSchedule pingOk parse jobs).2 = false) ∧
    (pingOk = true → (∀ j, j ∈ jobs → parse j.spec = true) →
      (runSchedule pingOk parse jobs).1 = Except.ok () ∧
      (runSchedule pingOk parse jobs).2 = true) := by
  refine ⟨?_, ?_, ?_⟩
  · intro hp
    simp [runSchedule, hp]
  · intro j hj hbad
    cases hp : pingOk
    · simp [runSchedule]
    · rcases hfind : jobs.find? (fun j => !parse j.spec) with _ | jbad
      · exfalso
        rw [List.find?_eq_none] at hfind
        have := hfind j hj
        rw [hbad] at this
        exact this rfl
      · simp [runSchedule, hp, hfind]
  · intro hp hall
    rcases hfind : jobs.find? (fun j => !parse j.spec) with _ | jbad
    · simp [runSchedule, hp, hfind]
    · exfalso
      have hmem := List.mem_of_find?_eq_some hfind
      have hprop := List.find?_some hfind
      rw [hall jbad hmem] at hprop
      exact Bool.noConfusion hprop

/-- The startup contract on concrete schedules: failed PING, one bad spec,
and a clean run. -/
theorem C8_witness :
    ((false : Bool) = false →
      (runSchedule false (fun _ => true) []).1 =
        Except.error "redis ping failed" ∧
      (runSchedule false (fun _ => true) []).2 = false) ∧
    (((⟨"bad", "j"⟩ : Job) ∈ [(⟨"bad", "j"⟩ : Job)] →
      (fun _ => false : String → Bool) (Job.spec ⟨"bad", "j"⟩) = false →
      (∃ e, (runSchedule true (fun _ => false) [⟨"bad", "j"⟩]).1 =
        Except.error e) ∧
      (runSchedule true (fun _ => false) [⟨"bad", "j"⟩]).2 = false)) ∧
    ((true : Bool) = true →
      (runSchedule true (fun _ => true) [⟨"* * * * *", "j"⟩]).1 =
        Except.ok () ∧
      (runSchedule true (fun _ => true) [⟨"* * * * *", "j"⟩]).2 = true) :=
  ⟨(C8_run_startup false (fun _ => true) []).1,
   fun hm hb => (C8_run_startup true (fun _ => false) [⟨"bad", "j"⟩]).2.1
     ⟨"bad", "j"⟩ hm hb,
   fun _ => (C8_run_startup true (fun _ => true) [⟨"* * * * *", "j"⟩]).2.2 rfl
     (fun _ _ => rfl)⟩

/-- C9: the lock key is derived deterministically from the job name by
prefixing the fixed constant `GLOBAL-`, and it always differs from the
marker key, which is the raw job name. -/
theorem C9_lock_key_derivation (freshId : Nat) (name : String) :
    (lockSetup freshId name).mutex.mname = "GLOBAL-" ++ name ∧
    (lockSetup freshId name).mutex.mname ≠ name := by
  refine ⟨rfl, ?_⟩
  intro hcontra
  have hlen : ("GLOBAL-" ++ name).length = name.length :=
    congrArg String.length hcontra
  rw [String.length_append] at hlen
  have h7 : "GLOBAL-".length = 7 := rfl
  rw [h7] at hlen
  omega

/-- The lock-key derivation at a concrete job name. -/
theorem C9_witness :
    (lockSetup 3 "daily-report").mutex.mname = "GLOBAL-" ++ "daily-report" ∧
    (lockSetup 3 "daily-report").mutex.mname ≠ "daily-report" :=
  C9_lock_key_derivation 3 "daily-report"

/-- C10: on every skip path taken after the mutex has been acquired - marker
read failure, marker already present, marker write failure - the wrapper
returns without ever calling the mutex's unlock operation, and the mutex is
still held at return (only its own expiry can release it). -/
theorem C10_skip_keeps_mutex (env : GuardEnv) (m : DMutex) (s : GuardState)
    (hl : env.lockErr = false)
    (h : env.getErr = true ∨ (∃ v, s.marker = some v) ∨
      (s.marker = none ∧ env.setErr = true)) :
    (lockRun env m s).1.mutexHeld = true ∧
    GEvent.unlockOk m.id ∉ (lockRun env m s).2 ∧
    GEvent.unlockFail m.id ∉ (lockRun env m s).2 ∧
    GEvent.lastUnlockOk m.id ∉ (lockRun env m s).2 ∧
    GEvent.lastUnlockFail m.id ∉ (lockRun env m s).2 := by
  rcases h with hg | ⟨v, hv⟩ | ⟨hm, hs⟩
  · simp [lockRun, hl, hg]
  · rcases hge : env.getErr <;> simp [lockRun, hl, hv, hge]
  · rcases hge : env.getErr <;> simp [lockRun, hl, hm, hs, hge]

/-- The held-mutex skip on a concrete invocation: marker already present. -/
theorem C10_witness :
    (lockRun ⟨false, false, false, true, false, false, true⟩
      ⟨5, "GLOBAL-job"⟩ ⟨some 1, false⟩).1.mutexHeld = true ∧
    GEvent.unlockOk 5 ∉
      (lockRun ⟨false, false, false, true, false, false, true⟩
        ⟨5, "GLOBAL-job"⟩ ⟨some 1, false⟩).2 ∧
    GEvent.unlockFail 5 ∉
      (lockRun ⟨false, false, false, true, false, false, true⟩
        ⟨5, "GLOBAL-job"⟩ ⟨some 1, false⟩).2 ∧
    GEvent.lastUnlockOk 5 ∉
      (lockRun ⟨false, false, false, true, false, false, true⟩
        ⟨5, "GLOBAL-job"⟩ ⟨some 1, false⟩).2 ∧
    GEvent.lastUnlockFail 5 ∉
      (lockRun ⟨false, false, false, true, false, false, true⟩
        ⟨5, "GLOBAL-job"⟩ ⟨some 1, false⟩).2 :=
  C10_skip_keeps_mutex _ _ _ rfl (Or.inr (Or.inl ⟨1, rfl⟩))

end Distcron
